import Mathlib

/-!
Verification of the analytics engine of an LND (Lightning Network Daemon)
monitoring node. The definitions below are a shallow embedding of the
TypeScript source in `src/credentials/LndApi.credentials.ts`: JS numbers on
integer data are modelled as `Nat`/`Int`, JS floating-point expressions
(`Math.round`, division before rounding, thresholds such as `0.9`) as `ℚ`
with an explicit rounding function, JS objects used as accumulator maps as
association lists, and `Array.prototype.sort` (stable per the ECMAScript
specification) as `List.mergeSort`.
-/

set_option maxRecDepth 8000

/-- JS `Math.round x` on a rational: the integer nearest to `x`, ties toward
positive infinity, i.e. `⌊x + 1/2⌋`. -/
def jsRound (q : ℚ) : ℤ := ⌊q + 1 / 2⌋

/-- JS `s || d` where `s` is an optional string field: a missing field and
the empty string are falsy and yield the default `d`. -/
def jsOrStr (s : Option String) (d : String) : String :=
  match s with
  | none => d
  | some v => if v = "" then d else v

theorem jsRound_eq (q : ℚ) (z : ℤ) (h1 : (z : ℚ) ≤ q + 1 / 2) (h2 : q + 1 / 2 < z + 1) :
    jsRound q = z := by
  unfold jsRound
  exact Int.floor_eq_iff.mpr ⟨h1, h2⟩

/-- One pending HTLC of a channel, as listed in the `/v1/channels` response
(`h.amount` is already parsed to an integer of satoshis). -/
structure PendingHtlc where
  incoming : Bool
  amount : Nat
deriving DecidableEq, Repr

/-- One channel of the `/v1/channels` listing, with the fields the analytics
operations read (string fields already parsed to integers, as the source does
with `parseInt(x || '0')`). -/
structure LndChannel where
  chan_id : String
  channel_point : String
  remote_pubkey : String
  capacity : Nat
  local_balance : Nat
  remote_balance : Nat
  active : Bool
  uptime : Nat
  lifetime : Nat
  pending_htlcs : List PendingHtlc
deriving DecidableEq, Repr

/-- `const maxHtlcPerSpec = 483` in the htlcMonitor operation. -/
def maxHtlcPerSpec : Nat := 483

/-- Per-channel result of the htlcMonitor operation. -/
structure HtlcChanReport where
  chan_id : String
  pending_htlc_count : Nat
  htlc_utilization_pct : ℤ
  dust_htlc_count : Nat
  risk_level : String
deriving DecidableEq, Repr

/-- The per-channel body of the `htlcMonitor` map: counts pending HTLCs,
filters the dust ones (`amount ≤ dustThreshold`), and assigns `risk_level`
through the source's sequence of non-exclusive `if` statements: `warning`,
then `critical`, then `dust_attack_suspected`, each overwriting the previous
assignment when its condition holds. -/
def htlcAnalyzeChannel (htlcWarnThreshold dustThreshold : Nat) (c : LndChannel) :
    HtlcChanReport :=
  let pendingHtlcs := c.pending_htlcs
  let numPending := pendingHtlcs.length
  let dustHtlcs := pendingHtlcs.filter (fun h => h.amount ≤ dustThreshold)
  let utilizationPct := jsRound ((numPending : ℚ) / (maxHtlcPerSpec : ℚ) * 100)
  let risk0 := "normal"
  let risk1 := if numPending ≥ htlcWarnThreshold then "warning" else risk0
  let risk2 := if (numPending : ℚ) ≥ (maxHtlcPerSpec : ℚ) * 0.9 then "critical" else risk1
  let risk3 :=
    if (dustHtlcs.length : ℚ) > (numPending : ℚ) * 0.5 ∧ numPending > 10 then
      "dust_attack_suspected"
    else risk2
  ⟨c.chan_id, numPending, utilizationPct, dustHtlcs.length, risk3⟩

/-- `local_ratio_pct`: `cap > 0 ? Math.round((local / cap) * 100) : 0`. -/
def localRatioPct (cap localBal : Nat) : ℤ :=
  if cap > 0 then jsRound ((localBal : ℚ) / (cap : ℚ) * 100) else 0

/-- Per-channel result of the balanceMonitor operation. -/
structure BalanceChanReport where
  chan_id : String
  channel_point : String
  remote_pubkey : String
  capacity_sat : Nat
  local_balance_sat : Nat
  remote_balance_sat : Nat
  local_ratio_pct : ℤ
  status : String
  active : Bool
  needs_rebalance : Bool
deriving DecidableEq, Repr

/-- The per-channel body of the `balanceMonitor` map: status starts
`balanced`, becomes `depleted_local` when `ratio < threshold`, else
`depleted_remote` when `ratio > 100 - threshold`. -/
def balanceAnalyzeChannel (threshold : ℤ) (c : LndChannel) : BalanceChanReport :=
  let ratioPct := localRatioPct c.capacity c.local_balance
  let status :=
    if ratioPct < threshold then "depleted_local"
    else if ratioPct > 100 - threshold then "depleted_remote"
    else "balanced"
  ⟨c.chan_id, c.channel_point, c.remote_pubkey, c.capacity, c.local_balance, c.remote_balance,
    ratioPct, status, c.active, status != "balanced"⟩

/-- Whole result of the balanceMonitor operation. -/
structure BalanceReport where
  total_channels : Nat
  balanced_channels : Nat
  imbalanced_channels : Nat
  threshold_pct : ℤ
  channels : List BalanceChanReport
  alerts : List BalanceChanReport
deriving DecidableEq, Repr

/-- The `balanceMonitor` operation on a channel snapshot. -/
def balanceMonitor (threshold : ℤ) (chans : List LndChannel) : BalanceReport :=
  let analyzed := chans.map (balanceAnalyzeChannel threshold)
  let needsAttention := analyzed.filter (fun c => c.needs_rebalance)
  ⟨analyzed.length, analyzed.length - needsAttention.length, needsAttention.length,
    threshold, analyzed, needsAttention⟩

/-- A channel carrying 435 pending HTLCs (≥ `483 * 0.9 = 434.7`), every one
of them a 1-sat dust HTLC. -/
def dustFloodChannel : LndChannel :=
  { chan_id := "111", channel_point := "aa:0", remote_pubkey := "pk1",
    capacity := 10000000, local_balance := 5000000, remote_balance := 5000000,
    active := true, uptime := 0, lifetime := 0,
    pending_htlcs := List.replicate 435 { incoming := true, amount := 1 } }

/-- C1 counterexample: `dustFloodChannel` satisfies every condition of the
claim (pending count at least `483 * 0.9`, dust count above half, count above
10), yet the htlcMonitor assigns `dust_attack_suspected`, not `critical`:
the dust-attack `if` is the last one executed and overwrites `critical`. -/
theorem C1_counterexample :
    ((dustFloodChannel.pending_htlcs.length : ℚ) ≥ (maxHtlcPerSpec : ℚ) * 0.9
      ∧ ((dustFloodChannel.pending_htlcs.filter (fun h => h.amount ≤ 546)).length : ℚ)
          > (dustFloodChannel.pending_htlcs.length : ℚ) * 0.5
      ∧ dustFloodChannel.pending_htlcs.length > 10)
    ∧ (htlcAnalyzeChannel 200 546 dustFloodChannel).risk_level ≠ "critical"
    ∧ (htlcAnalyzeChannel 200 546 dustFloodChannel).risk_level = "dust_attack_suspected" := by
  have hfilter : dustFloodChannel.pending_htlcs.filter (fun h => h.amount ≤ 546)
      = dustFloodChannel.pending_htlcs := by
    simp [dustFloodChannel, List.filter_replicate]
  have hlen : dustFloodChannel.pending_htlcs.length = 435 := by
    simp [dustFloodChannel]
  have hrisk : (htlcAnalyzeChannel 200 546 dustFloodChannel).risk_level
      = "dust_attack_suspected" := by
    simp only [htlcAnalyzeChannel, hfilter, hlen, maxHtlcPerSpec]
    norm_num
  refine ⟨⟨?_, ?_, ?_⟩, ?_, ?_⟩
  · rw [hlen]
    norm_num [maxHtlcPerSpec]
  · rw [hfilter, hlen]
    norm_num
  · rw [hlen]
    norm_num
  · rw [hrisk]
    decide
  · exact hrisk

/-- C1 (amended): for a channel at the critical pending-HTLC threshold
(`count ≥ 483 * 0.9`), the assigned risk level is `critical` unless the
dust-attack condition (`dustCount > count * 0.5` and `count > 10`) also
holds, in which case the later dust-attack check overwrites it and the
channel is reported `dust_attack_suspected`. -/
theorem C1_dust_check_overrides_critical (htlcWarnThreshold dustThreshold : Nat)
    (c : LndChannel)
    (hcrit : ((c.pending_htlcs.length : ℚ)) ≥ (maxHtlcPerSpec : ℚ) * 0.9) :
    (htlcAnalyzeChannel htlcWarnThreshold dustThreshold c).risk_level =
      if ((c.pending_htlcs.filter (fun h => h.amount ≤ dustThreshold)).length : ℚ)
            > (c.pending_htlcs.length : ℚ) * 0.5 ∧ c.pending_htlcs.length > 10
      then "dust_attack_suspected" else "critical" := by
  simp only [htlcAnalyzeChannel, if_pos hcrit]

/-- C1 witness: the amended theorem applied to `dustFloodChannel`. -/
theorem C1_dust_check_overrides_critical_witness :
    (htlcAnalyzeChannel 200 546 dustFloodChannel).risk_level =
      if ((dustFloodChannel.pending_htlcs.filter (fun h => h.amount ≤ 546)).length : ℚ)
            > (dustFloodChannel.pending_htlcs.length : ℚ) * 0.5
          ∧ dustFloodChannel.pending_htlcs.length > 10
      then "dust_attack_suspected" else "critical" :=
  C1_dust_check_overrides_critical 200 546 dustFloodChannel
    (by simp only [dustFloodChannel, List.length_replicate, maxHtlcPerSpec]; norm_num)

/-- The end-to-end example channel of the spec: capacity 1,000,000 sats and
local balance 200,000 sats. -/
def exampleChannel : LndChannel :=
  { chan_id := "222", channel_point := "bb:1", remote_pubkey := "pk2",
    capacity := 1000000, local_balance := 200000, remote_balance := 800000,
    active := true, uptime := 0, lifetime := 0, pending_htlcs := [] }

/-- C3 counterexample: with capacity 1,000,000, local balance 200,000 and
threshold 20 the computed `local_ratio_pct` is 20 but the status is not
`depleted_local` (the comparison `20 < 20` is strict and fails). -/
theorem C3_counterexample :
    (balanceAnalyzeChannel 20 exampleChannel).local_ratio_pct = 20
    ∧ (balanceAnalyzeChannel 20 exampleChannel).status ≠ "depleted_local" := by
  have hr : localRatioPct exampleChannel.capacity exampleChannel.local_balance = 20 := by
    simp only [localRatioPct, exampleChannel]
    rw [if_pos (by norm_num)]
    exact jsRound_eq _ 20 (by norm_num) (by norm_num)
  constructor
  · simpa only [balanceAnalyzeChannel] using hr
  · simp only [balanceAnalyzeChannel, hr]
    decide

/-- C3 (amended): the example channel (capacity 1,000,000, local balance
200,000, threshold 20) gets `local_ratio_pct = 20` and status `balanced`:
`depleted_local` requires `ratio < threshold` strictly and `20 < 20` fails.
In general the status is `depleted_local` iff `ratio < threshold`,
`depleted_remote` iff `ratio ≥ threshold` and `ratio > 100 - threshold`,
and `balanced` otherwise. -/
theorem C3_boundary_is_balanced :
    ((balanceAnalyzeChannel 20 exampleChannel).local_ratio_pct = 20
      ∧ (balanceAnalyzeChannel 20 exampleChannel).status = "balanced")
    ∧ ∀ (threshold : ℤ) (c : LndChannel),
        ((balanceAnalyzeChannel threshold c).status = "depleted_local"
            ↔ localRatioPct c.capacity c.local_balance < threshold)
        ∧ ((balanceAnalyzeChannel threshold c).status = "depleted_remote"
            ↔ ¬ localRatioPct c.capacity c.local_balance < threshold
              ∧ localRatioPct c.capacity c.local_balance > 100 - threshold)
        ∧ ((balanceAnalyzeChannel threshold c).status = "balanced"
            ↔ ¬ localRatioPct c.capacity c.local_balance < threshold
              ∧ ¬ localRatioPct c.capacity c.local_balance > 100 - threshold) := by
  constructor
  · have hr : localRatioPct exampleChannel.capacity exampleChannel.local_balance = 20 := by
      simp only [localRatioPct, exampleChannel]
      rw [if_pos (by norm_num)]
      exact jsRound_eq _ 20 (by norm_num) (by norm_num)
    constructor
    · simpa only [balanceAnalyzeChannel] using hr
    · simp only [balanceAnalyzeChannel, hr]
      decide
  · intro threshold c
    simp only [balanceAnalyzeChannel]
    constructor
    · split
      · simp_all
      · split <;> simp_all
    constructor
    · split
      · simp_all
      · split <;> simp_all
    · split
      · simp_all
      · split <;> simp_all

/-- One fee suggestion of the autoFeeSuggestion operation. -/
structure FeeSuggestion where
  chan_id : String
  channel_point : String
  remote_pubkey : String
  capacity_sat : Nat
  local_balance_sat : Nat
  local_ratio_pct : ℤ
  suggested_fee_rate_ppm : Nat
  suggested_base_fee_msat : Nat
  reason : String
deriving DecidableEq, Repr

/-- The per-channel body of the autoFeeSuggestion map: the balance ratio is
mapped to the low/high/balanced fee tier. -/
def feeSuggestChannel (lowFee balFee highFee autoBase : Nat) (c : LndChannel) :
    FeeSuggestion :=
  let ratioPct := localRatioPct c.capacity c.local_balance
  let tier :=
    if ratioPct < 30 then (lowFee, "Low local balance - high fee to discourage drain")
    else if ratioPct > 70 then (highFee, "High local balance - low fee to encourage outflow")
    else (balFee, "Well balanced - standard fee")
  ⟨c.chan_id, c.channel_point, c.remote_pubkey, c.capacity, c.local_balance,
    ratioPct, tier.1, autoBase, tier.2⟩

/-- The `if (apply)` loop of autoFeeSuggestion: one `/v1/chanpolicy` POST per
suggestion, sequentially awaited, with no try/catch around the body.
`applyPolicy` models the external policy-update capability; `Except.error`
models a rejected promise, which propagates out of the loop immediately.
Returns the suggestions whose update call completed (those calls are never
rolled back) together with the propagated error, if any. -/
def applyFeeSuggestions (applyPolicy : FeeSuggestion → Except String Unit) :
    List FeeSuggestion → List FeeSuggestion × Option String
  | [] => ([], none)
  | s :: rest =>
    match applyPolicy s with
    | Except.ok _ =>
      let tail := applyFeeSuggestions applyPolicy rest
      (s :: tail.1, tail.2)
    | Except.error e => ([], some e)

def feeSugA : FeeSuggestion :=
  ⟨"901", "ca:0", "pka", 100000, 10000, 10, 500, 1000, "Low local balance - high fee to discourage drain"⟩

def feeSugB : FeeSuggestion :=
  ⟨"902", "cb:0", "pkb", 100000, 50000, 50, 100, 1000, "Well balanced - standard fee"⟩

/-- A policy updater that rejects the update for channel 901 and accepts any
other. -/
def failingPolicyUpdate : FeeSuggestion → Except String Unit :=
  fun s => if s.chan_id = "901" then Except.error "connection refused" else Except.ok ()

/-- C2 counterexample: applying [feeSugA, feeSugB] with an updater that fails
on feeSugA but would succeed on feeSugB aborts the whole batch at the first
failure: the result is the propagated error with no applied entries, there is
no per-item failure record, and feeSugB is never processed even though its
update would have succeeded. -/
theorem C2_counterexample :
    failingPolicyUpdate feeSugB = Except.ok ()
    ∧ applyFeeSuggestions failingPolicyUpdate [feeSugA, feeSugB]
        = ([], some "connection refused") := by
  constructor
  · rfl
  · rfl

theorem applyFeeSuggestions_cons_ok (applyPolicy : FeeSuggestion → Except String Unit)
    (a : FeeSuggestion) (rest : List FeeSuggestion) (h : applyPolicy a = Except.ok ()) :
    applyFeeSuggestions applyPolicy (a :: rest)
      = (a :: (applyFeeSuggestions applyPolicy rest).1,
          (applyFeeSuggestions applyPolicy rest).2) := by
  simp only [applyFeeSuggestions, h]

theorem applyFeeSuggestions_cons_err (applyPolicy : FeeSuggestion → Except String Unit)
    (a : FeeSuggestion) (rest : List FeeSuggestion) (e : String)
    (h : applyPolicy a = Except.error e) :
    applyFeeSuggestions applyPolicy (a :: rest) = ([], some e) := by
  simp only [applyFeeSuggestions, h]

/-- C2 (amended): in autoFeeSuggestion with applySuggestions enabled, a
failing per-channel fee-policy update aborts the batch: the error propagates
out of the loop, the remaining channels are not processed, and no per-item
failure is collected; the updates already applied before the failure remain
applied with no rollback. -/
theorem C2_apply_loop_aborts_on_failure
    (applyPolicy : FeeSuggestion → Except String Unit)
    (l1 : List FeeSuggestion) (s : FeeSuggestion) (l2 : List FeeSuggestion) (e : String)
    (hok : ∀ x ∈ l1, applyPolicy x = Except.ok ())
    (herr : applyPolicy s = Except.error e) :
    applyFeeSuggestions applyPolicy (l1 ++ s :: l2) = (l1, some e) := by
  induction l1 with
  | nil =>
    rw [List.nil_append]
    exact applyFeeSuggestions_cons_err applyPolicy s l2 e herr
  | cons a rest ih =>
    have ha : applyPolicy a = Except.ok () := hok a (by simp)
    have hrest : ∀ x ∈ rest, applyPolicy x = Except.ok () := fun x hx => hok x (by simp [hx])
    rw [List.cons_append, applyFeeSuggestions_cons_ok applyPolicy a _ ha, ih hrest]

/-- C2 witness: the amended theorem at a batch of three suggestions whose
second update fails. -/
theorem C2_apply_loop_aborts_on_failure_witness :
    applyFeeSuggestions failingPolicyUpdate ([feeSugB] ++ feeSugA :: [feeSugB])
      = ([feeSugB], some "connection refused") :=
  C2_apply_loop_aborts_on_failure failingPolicyUpdate [feeSugB] feeSugA [feeSugB]
    "connection refused"
    (by intro x hx; simp only [List.mem_singleton] at hx; subst hx; rfl)
    (by rfl)

/-- One page of the `/v1/switch` response: the `forwarding_events` array
(`resp.forwarding_events || []` defaults a missing array to empty, so the
field is the already-defaulted list) and the `last_offset_index` field, which
may be absent (`parseInt(resp.last_offset_index || '0')` then yields 0).
Events are abstract. -/
structure SwitchPage (E : Type) where
  forwarding_events : List E
  last_offset_index : Option Nat
deriving DecidableEq, Repr

/-- `const pageSize = 10000` in getAllForwardingEvents. -/
def pageSize : Nat := 10000

/-- The pagination loop of getAllForwardingEvents over an injected page
fetcher: `fetch off` models the awaited POST to `/v1/switch` with
`index_offset: off`. `fuel` bounds the iterations so the function is total
(`none` = fuel exhausted, i.e. the loop had not yet terminated). Returns the
concatenated events and the offsets requested, in request order. -/
def collectForwardingEvents {E : Type} (fetch : Nat → SwitchPage E) :
    Nat → Nat → List E → List Nat → Option (List E × List Nat)
  | 0, _, _, _ => none
  | fuel + 1, indexOffset, allEvents, calls =>
    let resp := fetch indexOffset
    let events := resp.forwarding_events
    if events.length < pageSize then
      some (allEvents ++ events, calls ++ [indexOffset])
    else
      collectForwardingEvents fetch fuel (resp.last_offset_index.getD 0)
        (allEvents ++ events) (calls ++ [indexOffset])

/-- getAllForwardingEvents: the loop starting from `indexOffset = 0` with an
empty accumulator. -/
def getAllForwardingEvents {E : Type} (fetch : Nat → SwitchPage E) (fuel : Nat) :
    Option (List E × List Nat) :=
  collectForwardingEvents fetch fuel 0 [] []

theorem collectForwardingEvents_step_done {E : Type} (fetch : Nat → SwitchPage E)
    (fuel indexOffset : Nat) (allEvents : List E) (calls : List Nat)
    (h : (fetch indexOffset).forwarding_events.length < pageSize) :
    collectForwardingEvents fetch (fuel + 1) indexOffset allEvents calls
      = some (allEvents ++ (fetch indexOffset).forwarding_events, calls ++ [indexOffset]) := by
  simp only [collectForwardingEvents, if_pos h]

theorem collectForwardingEvents_step_more {E : Type} (fetch : Nat → SwitchPage E)
    (fuel indexOffset : Nat) (allEvents : List E) (calls : List Nat)
    (h : ¬ (fetch indexOffset).forwarding_events.length < pageSize) :
    collectForwardingEvents fetch (fuel + 1) indexOffset allEvents calls
      = collectForwardingEvents fetch fuel ((fetch indexOffset).last_offset_index.getD 0)
          (allEvents ++ (fetch indexOffset).forwarding_events) (calls ++ [indexOffset]) := by
  simp only [collectForwardingEvents, if_neg h]

/-- C4: over a source holding exactly one full page (the first fetch returns
exactly `pageSize` events and reports `last_offset_index = k`, the fetch at
`k` returns a short page), the collector terminates right after the second
call: it requests offsets `[0, k]` in order — the second request uses the
source-reported `last_offset_index`, not `0 + pageSize` — and returns the
two pages concatenated in fetched order. -/
theorem C4_collector_two_calls {E : Type} (fetch : Nat → SwitchPage E)
    (page1 : List E) (k : Nat) (fuel : Nat)
    (h1 : fetch 0 = ⟨page1, some k⟩)
    (hlen1 : page1.length = pageSize)
    (hlen2 : (fetch k).forwarding_events.length < pageSize)
    (hfuel : 2 ≤ fuel) :
    getAllForwardingEvents fetch fuel
      = some (page1 ++ (fetch k).forwarding_events, [0, k]) := by
  obtain ⟨f, rfl⟩ : ∃ f, fuel = f + 1 + 1 := ⟨fuel - 2, by omega⟩
  unfold getAllForwardingEvents
  rw [collectForwardingEvents_step_more fetch (f + 1) 0 [] []
      (by rw [h1]; simp [hlen1])]
  rw [h1]
  show collectForwardingEvents fetch (f + 1) k page1 [0]
    = some (page1 ++ (fetch k).forwarding_events, [0, k])
  rw [collectForwardingEvents_step_done fetch f k page1 [0] hlen2]
  rfl

/-- A source with exactly one full page of `pageSize` events (each event the
number 7), reporting `last_offset_index = 12345` on the first page. -/
def oneFullPageFetch : Nat → SwitchPage Nat :=
  fun off => if off = 0 then ⟨List.replicate pageSize 7, some 12345⟩ else ⟨[], none⟩

/-- C4 witness: the collector theorem at `oneFullPageFetch` with fuel 2. -/
theorem C4_collector_two_calls_witness :
    getAllForwardingEvents oneFullPageFetch 2
      = some (List.replicate pageSize 7 ++ (oneFullPageFetch 12345).forwarding_events,
          [0, 12345]) :=
  C4_collector_two_calls oneFullPageFetch (List.replicate pageSize 7) 12345 2
    (by rfl)
    (by simp)
    (by simp [oneFullPageFetch, pageSize])
    (by omega)

/-- One forwarding event of the `/v1/switch` stream, with the fields the
analytics operations read. The channel-id fields are the raw optional strings
(`e.chan_id_in || 'unknown'` treats a missing id and the empty string as
absent); the monetary fields are already parsed (`parseInt(x || '0')`). -/
structure FwdEvent where
  chan_id_in : Option String
  chan_id_out : Option String
  fee_msat : Nat
  amt_in_msat : Nat
  amt_out_msat : Nat
deriving DecidableEq, Repr

/-- The outbound amount in satoshis:
`Math.floor(parseInt(e.amt_out_msat || '0') / 1000)`. -/
def amtOutSat (e : FwdEvent) : Nat := e.amt_out_msat / 1000

/-- The dust partition of dustAnalysis: `amtOutSat ≤ dustThresholdSat`. -/
def dustForwardEvents (dustThresholdSat : Nat) (events : List FwdEvent) : List FwdEvent :=
  events.filter (fun e => amtOutSat e ≤ dustThresholdSat)

/-- The normal partition of dustAnalysis, as filtered for the normal-fee
total: `amtOutSat > dustThresholdSat`. -/
def normalForwardEvents (dustThresholdSat : Nat) (events : List FwdEvent) : List FwdEvent :=
  events.filter (fun e => amtOutSat e > dustThresholdSat)

/-- C6: dustAnalysis partitions the events: every event with outbound amount
at most the threshold is in the dust partition and not in the normal one, the
two partitions are disjoint, and together they are a permutation of the full
input list. -/
theorem C6_dust_partition (dustThresholdSat : Nat) (events : List FwdEvent) :
    (∀ e ∈ events, amtOutSat e ≤ dustThresholdSat →
        e ∈ dustForwardEvents dustThresholdSat events
        ∧ e ∉ normalForwardEvents dustThresholdSat events)
    ∧ (∀ e, e ∈ dustForwardEvents dustThresholdSat events →
        e ∉ normalForwardEvents dustThresholdSat events)
    ∧ (dustForwardEvents dustThresholdSat events
        ++ normalForwardEvents dustThresholdSat events).Perm events := by
  refine ⟨?_, ?_, ?_⟩
  · intro e he hd
    refine ⟨List.mem_filter.mpr ⟨he, by simpa using hd⟩, ?_⟩
    intro hmem
    have := (List.mem_filter.mp hmem).2
    simp only [gt_iff_lt, decide_eq_true_eq] at this
    omega
  · intro e hd hn
    have h1 := (List.mem_filter.mp hd).2
    have h2 := (List.mem_filter.mp hn).2
    simp only [decide_eq_true_eq, gt_iff_lt] at h1 h2
    omega
  · have hnormal : normalForwardEvents dustThresholdSat events
        = events.filter (fun e => !(decide (amtOutSat e ≤ dustThresholdSat))) := by
      unfold normalForwardEvents
      apply List.filter_congr
      intro x _
      simp only [gt_iff_lt]
      by_cases h : amtOutSat x ≤ dustThresholdSat
      · simp [h, Nat.not_lt.mpr h]
      · simp [h, Nat.lt_of_not_le h]
    rw [hnormal]
    exact List.filter_append_perm _ events

/-- Per-channel accumulator of forwardingSummary (initialized with all
counters 0 when a channel id is first seen). -/
structure ChanSummary where
  chan_id : String
  forwards_in : Nat
  forwards_out : Nat
  fee_earned_msat : Nat
  amount_routed_in_msat : Nat
  amount_routed_out_msat : Nat
deriving DecidableEq, Repr

def emptyChanSummary (cid : String) : ChanSummary := ⟨cid, 0, 0, 0, 0, 0⟩

/-- Whether the accumulator object already has key `k`. -/
def hasKey (m : List (String × ChanSummary)) (k : String) : Bool :=
  m.any (fun p => p.1 = k)

/-- `if (!chanStats[k]) chanStats[k] = { ...zeroes }`: JS object insertion
appends a new string key at the end of the property order. -/
def ensureKey (m : List (String × ChanSummary)) (k : String) :
    List (String × ChanSummary) :=
  if hasKey m k then m else m ++ [(k, emptyChanSummary k)]

/-- In-place mutation of the entry with key `k` (the first such entry; keys
are unique in a JS object). -/
def updateKey (f : ChanSummary → ChanSummary) :
    List (String × ChanSummary) → String → List (String × ChanSummary)
  | [], _ => []
  | p :: rest, k => if p.1 = k then (p.1, f p.2) :: rest else p :: updateKey f rest k

/-- `chanStats[inChan].forwards_in++; chanStats[inChan].amount_routed_in_msat += amtIn`. -/
def recordInbound (e : FwdEvent) (s : ChanSummary) : ChanSummary :=
  { s with forwards_in := s.forwards_in + 1,
           amount_routed_in_msat := s.amount_routed_in_msat + e.amt_in_msat }

/-- `chanStats[outChan].forwards_out++; ...fee_earned_msat += feeMsat;
...amount_routed_out_msat += amtOut`. -/
def recordOutbound (e : FwdEvent) (s : ChanSummary) : ChanSummary :=
  { s with forwards_out := s.forwards_out + 1,
           fee_earned_msat := s.fee_earned_msat + e.fee_msat,
           amount_routed_out_msat := s.amount_routed_out_msat + e.amt_out_msat }

/-- The body of forwardingSummary's `for (const e of events)` loop. -/
def chanStatsStep (m : List (String × ChanSummary)) (e : FwdEvent) :
    List (String × ChanSummary) :=
  let inChan := jsOrStr e.chan_id_in "unknown"
  let outChan := jsOrStr e.chan_id_out "unknown"
  let m1 := ensureKey m inChan
  let m2 := ensureKey m1 outChan
  let m3 := updateKey (recordInbound e) m2 inChan
  updateKey (recordOutbound e) m3 outChan

/-- The accumulator after the whole loop. -/
def chanStats (events : List FwdEvent) : List (String × ChanSummary) :=
  events.foldl chanStatsStep []

/-- One row of the final channel_summary list (`...s` spread plus the two
derived fields). -/
structure ChanSummaryRow where
  stats : ChanSummary
  fee_earned_sat : Nat
  total_forwards : Nat
deriving DecidableEq, Repr

/-- `Object.values(chanStats).map(...).sort((a, b) => b.fee_earned_msat -
a.fee_earned_msat)`: rows sorted descending by fee earned (stable, per the
ECMAScript specification of Array.prototype.sort). -/
def channelSummary (events : List FwdEvent) : List ChanSummaryRow :=
  (((chanStats events).map (fun p => p.2)).map
      (fun s => ChanSummaryRow.mk s (s.fee_earned_msat / 1000)
        (s.forwards_in + s.forwards_out))).mergeSort
    (fun a b => b.stats.fee_earned_msat ≤ a.stats.fee_earned_msat)

/-- Total fee credited across the accumulator's entries. -/
def sumFees (m : List (String × ChanSummary)) : Nat :=
  (m.map (fun p => p.2.fee_earned_msat)).sum

theorem sumFees_ensureKey (m : List (String × ChanSummary)) (k : String) :
    sumFees (ensureKey m k) = sumFees m := by
  unfold ensureKey
  split
  · rfl
  · simp [sumFees, emptyChanSummary]

theorem hasKey_ensureKey_self (m : List (String × ChanSummary)) (k : String) :
    hasKey (ensureKey m k) k = true := by
  unfold ensureKey
  split
  · assumption
  · simp [hasKey]

theorem hasKey_ensureKey_mono (m : List (String × ChanSummary)) (j k : String)
    (h : hasKey m k = true) : hasKey (ensureKey m j) k = true := by
  unfold ensureKey
  split
  · exact h
  · simp only [hasKey, List.any_append, Bool.or_eq_true]
    exact Or.inl h

theorem hasKey_updateKey (f : ChanSummary → ChanSummary)
    (m : List (String × ChanSummary)) (j k : String) :
    hasKey (updateKey f m j) k = hasKey m k := by
  induction m with
  | nil => rfl
  | cons p rest ih =>
    unfold updateKey
    split
    · simp [hasKey]
    · simp only [hasKey, List.any_cons, Bool.or_eq_true] at ih ⊢
      rw [show (updateKey f rest j).any (fun p => p.1 = k) = rest.any (fun p => p.1 = k)
        from ih]

theorem sumFees_updateKey_inbound (e : FwdEvent)
    (m : List (String × ChanSummary)) (k : String) :
    sumFees (updateKey (recordInbound e) m k) = sumFees m := by
  induction m with
  | nil => rfl
  | cons p rest ih =>
    unfold updateKey
    split
    · simp [sumFees, recordInbound]
    · simp only [sumFees, List.map_cons, List.sum_cons] at ih ⊢
      rw [ih]

theorem sumFees_updateKey_outbound (e : FwdEvent)
    (m : List (String × ChanSummary)) (k : String) (h : hasKey m k = true) :
    sumFees (updateKey (recordOutbound e) m k) = sumFees m + e.fee_msat := by
  induction m with
  | nil => simp [hasKey] at h
  | cons p rest ih =>
    unfold updateKey
    split
    · simp only [sumFees, List.map_cons, List.sum_cons, recordOutbound]
      omega
    · have hk : hasKey rest k = true := by
        simp only [hasKey, List.any_cons, Bool.or_eq_true] at h
        rcases h with h | h
        · exact absurd (by simpa using h) (by assumption)
        · exact h
      simp only [sumFees, List.map_cons, List.sum_cons] at ih ⊢
      rw [ih hk]
      omega

theorem sumFees_chanStatsStep (m : List (String × ChanSummary)) (e : FwdEvent) :
    sumFees (chanStatsStep m e) = sumFees m + e.fee_msat := by
  unfold chanStatsStep
  rw [sumFees_updateKey_outbound e _ _ (by
    rw [hasKey_updateKey]
    exact hasKey_ensureKey_self _ _)]
  rw [sumFees_updateKey_inbound, sumFees_ensureKey, sumFees_ensureKey]

theorem sumFees_chanStats (events : List FwdEvent) :
    sumFees (chanStats events) = (events.map (fun e => e.fee_msat)).sum := by
  unfold chanStats
  suffices h : ∀ m, sumFees (events.foldl chanStatsStep m)
      = sumFees m + (events.map (fun e => e.fee_msat)).sum by
    simpa [sumFees] using h []
  induction events with
  | nil => intro m; simp
  | cons e rest ih =>
    intro m
    simp only [List.foldl_cons, List.map_cons, List.sum_cons, ih, sumFees_chanStatsStep]
    omega

/-- C5: the forwarding summary conserves fees: the sum of `fee_earned_msat`
over the rows of channel_summary equals the sum of `fee_msat` over all input
events (every event's fee is credited to exactly one row, the one keyed by
the event's outbound channel, `"unknown"` when that id is absent). -/
theorem C5_fee_conservation (events : List FwdEvent) :
    ((channelSummary events).map (fun r => r.stats.fee_earned_msat)).sum
      = (events.map (fun e => e.fee_msat)).sum := by
  unfold channelSummary
  have hperm := List.mergeSort_perm
    (((chanStats events).map (fun p => p.2)).map
      (fun s => ChanSummaryRow.mk s (s.fee_earned_msat / 1000)
        (s.forwards_in + s.forwards_out)))
    (fun a b => b.stats.fee_earned_msat ≤ a.stats.fee_earned_msat)
  rw [(hperm.map (fun r => r.stats.fee_earned_msat)).sum_eq, List.map_map, List.map_map]
  exact sumFees_chanStats events

/-- One source/sink entry of suggestRebalances. -/
structure RebalEntry where
  chan_id : String
  channel_point : String
  remote_pubkey : String
  capacity_sat : Nat
  local_balance_sat : Nat
  local_ratio_pct : ℤ
  target_ratio_pct : ℤ
  deviation_pct : Nat
  amount_to_move_sat : Nat
deriving DecidableEq, Repr

/-- One suggested rebalance pair. -/
structure RebalSuggestion where
  from_channel : String
  from_pubkey : String
  from_local_ratio_pct : ℤ
  to_channel : String
  to_pubkey : String
  to_local_ratio_pct : ℤ
  suggested_amount_sat : Nat
deriving DecidableEq, Repr

/-- The body of suggestRebalances' classification loop: inactive channels are
skipped; a channel whose ratio deviates from the target by at least
`minDeviation` becomes a source (`diff > 0`, excess local balance) or a sink
(otherwise), carrying `amount_to_move_sat = |local - Math.round(cap *
(target/100))|`. Entries are appended in channel order. -/
def splitStep (targetPct : ℤ) (minDeviation : Nat)
    (acc : List RebalEntry × List RebalEntry) (c : LndChannel) :
    List RebalEntry × List RebalEntry :=
  if !c.active then acc
  else
    let cap := c.capacity
    let localBal := c.local_balance
    let ratioPct := localRatioPct cap localBal
    let deviation := (ratioPct - targetPct).natAbs
    if deviation ≥ minDeviation then
      let idealLocal := jsRound ((cap : ℚ) * ((targetPct : ℚ) / 100))
      let diff := (localBal : ℤ) - idealLocal
      let entry : RebalEntry :=
        ⟨c.chan_id, c.channel_point, c.remote_pubkey, cap, localBal, ratioPct,
          targetPct, deviation, diff.natAbs⟩
      if diff > 0 then (acc.1 ++ [entry], acc.2) else (acc.1, acc.2 ++ [entry])
    else acc

/-- Sources (high local balance) and sinks (low local balance) of
suggestRebalances, in channel order. -/
def splitSourcesSinks (targetPct : ℤ) (minDeviation : Nat) (chans : List LndChannel) :
    List RebalEntry × List RebalEntry :=
  chans.foldl (splitStep targetPct minDeviation) ([], [])

/-- The pairing loop `for (let si = 0; si < Math.min(sources.length,
sinks.length); si++)`: source[si] is paired with sink[si] and the suggested
amount is `Math.min` of the two amounts to move. -/
def pairRebalances (sources sinks : List RebalEntry) : List RebalSuggestion :=
  List.zipWith
    (fun src snk =>
      ⟨src.chan_id, src.remote_pubkey, src.local_ratio_pct,
        snk.chan_id, snk.remote_pubkey, snk.local_ratio_pct,
        min src.amount_to_move_sat snk.amount_to_move_sat⟩)
    sources sinks

/-- Whole result of the suggestRebalances operation. -/
structure RebalancePlan where
  target_ratio_pct : ℤ
  min_deviation_pct : Nat
  channels_need_outflow : Nat
  channels_need_inflow : Nat
  suggested_rebalances : List RebalSuggestion
  sources : List RebalEntry
  sinks : List RebalEntry
deriving DecidableEq, Repr

/-- The suggestRebalances operation on a channel snapshot. -/
def suggestRebalances (targetPct : ℤ) (minDeviation : Nat) (chans : List LndChannel) :
    RebalancePlan :=
  let sourcesSinks := splitSourcesSinks targetPct minDeviation chans
  ⟨targetPct, minDeviation, sourcesSinks.1.length, sourcesSinks.2.length,
    pairRebalances sourcesSinks.1 sourcesSinks.2, sourcesSinks.1, sourcesSinks.2⟩

/-- C7: for every channel snapshot the rebalance planner produces exactly
`min(|sources|, |sinks|)` suggested pairs; the pairing is positional
(source[i] with sink[i]) and each pair's suggested amount is the minimum of
the two endpoints' `amount_to_move_sat`, hence at most either of them. -/
theorem C7_rebalance_pairing (targetPct : ℤ) (minDeviation : Nat)
    (chans : List LndChannel) :
    (suggestRebalances targetPct minDeviation chans).suggested_rebalances.length
      = min (suggestRebalances targetPct minDeviation chans).sources.length
          (suggestRebalances targetPct minDeviation chans).sinks.length
    ∧ ∀ i,
        i < min (suggestRebalances targetPct minDeviation chans).sources.length
            (suggestRebalances targetPct minDeviation chans).sinks.length →
        ∃ src snk sug,
          (suggestRebalances targetPct minDeviation chans).sources[i]? = some src
          ∧ (suggestRebalances targetPct minDeviation chans).sinks[i]? = some snk
          ∧ (suggestRebalances targetPct minDeviation chans).suggested_rebalances[i]?
              = some sug
          ∧ sug.from_channel = src.chan_id
          ∧ sug.to_channel = snk.chan_id
          ∧ sug.suggested_amount_sat = min src.amount_to_move_sat snk.amount_to_move_sat
          ∧ sug.suggested_amount_sat ≤ src.amount_to_move_sat
          ∧ sug.suggested_amount_sat ≤ snk.amount_to_move_sat := by
  constructor
  · simp [suggestRebalances, pairRebalances, List.length_zipWith]
  · intro i hi
    simp only [suggestRebalances] at hi ⊢
    have h1 : i < (splitSourcesSinks targetPct minDeviation chans).1.length := by omega
    have h2 : i < (splitSourcesSinks targetPct minDeviation chans).2.length := by omega
    have h3 : i < (pairRebalances (splitSourcesSinks targetPct minDeviation chans).1
        (splitSourcesSinks targetPct minDeviation chans).2).length := by
      simp [pairRebalances, List.length_zipWith]
      omega
    refine ⟨(splitSourcesSinks targetPct minDeviation chans).1[i],
      (splitSourcesSinks targetPct minDeviation chans).2[i],
      (pairRebalances (splitSourcesSinks targetPct minDeviation chans).1
        (splitSourcesSinks targetPct minDeviation chans).2)[i],
      List.getElem?_eq_getElem h1, List.getElem?_eq_getElem h2,
      List.getElem?_eq_getElem h3, ?_, ?_, ?_, ?_, ?_⟩
      <;> simp [pairRebalances, List.getElem_zipWith]

/-- First-match increment of a JS numeric-counter object:
`m[k] = (m[k] || 0) + d`. Setting a fresh string key appends it to the
property order. -/
def addAt : List (String × Nat) → String → Nat → List (String × Nat)
  | [], k, d => [(k, d)]
  | p :: rest, k, d => if p.1 = k then (p.1, p.2 + d) :: rest else p :: addAt rest k d

/-- `m[k] || 0`. -/
def lookupCounter (m : List (String × Nat)) (k : String) : Nat :=
  match m.find? (fun p => p.1 = k) with
  | some p => p.2
  | none => 0

/-- `chanRevenue[outChan] = (chanRevenue[outChan] || 0) + fee` per event
(the missing-id default key here is the empty string, not "unknown"). -/
def chanRevenueStep (m : List (String × Nat)) (e : FwdEvent) : List (String × Nat) :=
  addAt m (jsOrStr e.chan_id_out "") e.fee_msat

/-- `chanForwards[outChan]++; chanForwards[inChan]++` per event. -/
def chanForwardsStep (m : List (String × Nat)) (e : FwdEvent) : List (String × Nat) :=
  addAt (addAt m (jsOrStr e.chan_id_out "") 1) (jsOrStr e.chan_id_in "") 1

def chanRevenue (events : List FwdEvent) : List (String × Nat) :=
  events.foldl chanRevenueStep []

def chanForwards (events : List FwdEvent) : List (String × Nat) :=
  events.foldl chanForwardsStep []

/-- `uptime_pct`: `c.lifetime > 0 ? Math.round(uptime / lifetime * 100) : 0`. -/
def uptimePct (c : LndChannel) : ℤ :=
  if c.lifetime > 0 then jsRound ((c.uptime : ℚ) / (c.lifetime : ℚ) * 100) else 0

/-- Per-peer accumulator of peerScoring. `avg_uptime_pct` is, as in the
source, first used as the running sum of the per-channel uptime percentages
and only divided by the channel count in the scoring pass. -/
structure PeerAcc where
  pubkey : String
  channels : List String
  total_capacity_sat : Nat
  total_local_balance_sat : Nat
  total_revenue_msat : Nat
  total_forwards : Nat
  avg_uptime_pct : ℤ
deriving DecidableEq, Repr

def emptyPeerAcc (pk : String) : PeerAcc := ⟨pk, [], 0, 0, 0, 0, 0⟩

/-- The `peerMap[pk].x += ...` block for one channel. -/
def peerUpdate (chanRev chanFwd : List (String × Nat)) (c : LndChannel)
    (p : PeerAcc) : PeerAcc :=
  { p with
      channels := p.channels ++ [c.chan_id],
      total_capacity_sat := p.total_capacity_sat + c.capacity,
      total_local_balance_sat := p.total_local_balance_sat + c.local_balance,
      total_revenue_msat := p.total_revenue_msat + lookupCounter chanRev c.chan_id,
      total_forwards := p.total_forwards + lookupCounter chanFwd c.chan_id,
      avg_uptime_pct := p.avg_uptime_pct + uptimePct c }

def ensurePeer (m : List (String × PeerAcc)) (pk : String) : List (String × PeerAcc) :=
  if m.any (fun p => p.1 = pk) then m else m ++ [(pk, emptyPeerAcc pk)]

def updatePeer (f : PeerAcc → PeerAcc) :
    List (String × PeerAcc) → String → List (String × PeerAcc)
  | [], _ => []
  | p :: rest, k => if p.1 = k then (p.1, f p.2) :: rest else p :: updatePeer f rest k

/-- The body of peerScoring's `for (const c of chans)` loop. -/
def peerMapStep (chanRev chanFwd : List (String × Nat))
    (m : List (String × PeerAcc)) (c : LndChannel) : List (String × PeerAcc) :=
  updatePeer (peerUpdate chanRev chanFwd c) (ensurePeer m c.remote_pubkey) c.remote_pubkey

def peerMap (chans : List LndChannel) (events : List FwdEvent) :
    List (String × PeerAcc) :=
  chans.foldl (peerMapStep (chanRevenue events) (chanForwards events)) []

/-- One scored peer of the peerScoring output. -/
structure PeerScore where
  pubkey : String
  channels : List String
  total_capacity_sat : Nat
  total_local_balance_sat : Nat
  total_revenue_msat : Nat
  total_forwards : Nat
  avg_uptime_pct : ℤ
  total_revenue_sat : Nat
  revenue_per_million_capacity : ℤ
  score : ℤ
  num_channels : Nat
deriving DecidableEq, Repr

/-- The scoring pass over one accumulated peer: average uptime, revenue per
million capacity (0 when capacity is 0), and the weighted score
`Math.round(rpm * 0.5 + avgUptime * 0.3 + Math.min(forwards, 1000) * 0.2)`. -/
def scorePeer (p : PeerAcc) : PeerScore :=
  let numChans := p.channels.length
  let avgUptimePct :=
    if numChans > 0 then jsRound ((p.avg_uptime_pct : ℚ) / (numChans : ℚ)) else 0
  let revenuePerMillionCapacity :=
    if p.total_capacity_sat > 0 then
      jsRound ((p.total_revenue_msat : ℚ) / (p.total_capacity_sat : ℚ) * 1000)
    else 0
  let score := jsRound ((revenuePerMillionCapacity : ℚ) * 0.5 + (avgUptimePct : ℚ) * 0.3
    + ((min p.total_forwards 1000 : Nat) : ℚ) * 0.2)
  ⟨p.pubkey, p.channels, p.total_capacity_sat, p.total_local_balance_sat,
    p.total_revenue_msat, p.total_forwards, avgUptimePct, p.total_revenue_msat / 1000,
    revenuePerMillionCapacity, score, numChans⟩

/-- `Object.values(peerMap).map(scoring).sort((a, b) => b.score - a.score)`. -/
def peerScores (chans : List LndChannel) (events : List FwdEvent) : List PeerScore :=
  ((peerMap chans events).map (fun p => scorePeer p.2)).mergeSort
    (fun a b => b.score ≤ a.score)

/-- C8: every peer of the peerScoring output carries
`score = round(rpm * 0.5 + avg_uptime * 0.3 + min(total_forwards, 1000) * 0.2)`
with `rpm = round(revenue / capacity * 1000)` (0 when capacity is 0), and the
output is sorted descending by score. -/
theorem C8_peer_score_formula (chans : List LndChannel) (events : List FwdEvent) :
    (∀ p ∈ peerScores chans events,
      p.score = jsRound ((p.revenue_per_million_capacity : ℚ) * 0.5
          + (p.avg_uptime_pct : ℚ) * 0.3 + ((min p.total_forwards 1000 : Nat) : ℚ) * 0.2)
      ∧ p.revenue_per_million_capacity =
          (if p.total_capacity_sat > 0 then
            jsRound ((p.total_revenue_msat : ℚ) / (p.total_capacity_sat : ℚ) * 1000)
          else 0))
    ∧ (peerScores chans events).Pairwise (fun a b => b.score ≤ a.score) := by
  constructor
  · intro p hp
    have hmem : p ∈ (peerMap chans events).map (fun q => scorePeer q.2) :=
      (List.mergeSort_perm _ _).mem_iff.mp hp
    obtain ⟨q, hq, rfl⟩ := List.mem_map.mp hmem
    exact ⟨rfl, rfl⟩
  · have hs := @List.sorted_mergeSort PeerScore
      (fun a b : PeerScore => decide (b.score ≤ a.score))
      (fun a b c h1 h2 => by
        simp only [decide_eq_true_eq] at h1 h2 ⊢
        omega)
      (fun a b => by
        simp only [Bool.or_eq_true, decide_eq_true_eq]
        omega)
      ((peerMap chans events).map (fun q => scorePeer q.2))
    unfold peerScores
    exact hs.imp (fun h => of_decide_eq_true h)

/-- One entry of the `/v1/fees` report's `channel_fees` array. A field the
report omits is `none` (`parseInt(x || '1000')` / `parseInt(x || '100')`
then yields the written default). -/
structure FeePolicy where
  channel_point : String
  base_fee_msat : Option Nat
  fee_per_mil : Option Nat
deriving DecidableEq, Repr

/-- Target of a `/v1/chanpolicy` POST: one channel point or `global: true`. -/
inductive ChanPolicyScope
  | chanPoint (funding_txid : String) (output_index : Nat)
  | global
deriving DecidableEq, Repr

/-- Body of a `/v1/chanpolicy` POST as updateMinHtlc builds it. -/
structure ChanPolicyBody where
  scope : ChanPolicyScope
  base_fee_msat : Nat
  fee_rate_ppm : Nat
  time_lock_delta : Nat
  min_htlc_msat : Nat
  min_htlc_msat_specified : Bool
deriving DecidableEq, Repr

/-- JS `String.prototype.trim`: drop whitespace from both ends. -/
def jsTrim (s : String) : String :=
  String.mk (((s.data.dropWhile Char.isWhitespace).reverse.dropWhile
    Char.isWhitespace).reverse)

/-- The request body the updateMinHtlc operation sends, as a function of the
channel-point parameter, the min-HTLC parameter and the fee report. With a
non-empty channel point the current base fee and fee rate are looked up in
the report (1000 msat / 100 ppm when no policy matches); with an empty one a
global update resets them to 1000 msat / 100 ppm. (The decimal parsing of the
output index is abbreviated to `String.toNat?`; the claims do not depend on
it.) -/
def updateMinHtlcBody (cp : String) (minHtlcMsat : Nat) (policies : List FeePolicy) :
    ChanPolicyBody :=
  if cp ≠ "" ∧ jsTrim cp ≠ "" then
    let parts := cp.splitOn ":"
    let fundingTxid := parts.headD ""
    let outputIndex := ((parts.getD 1 "").toNat?).getD 0
    let currentPolicy := policies.find? (fun p => p.channel_point = cp)
    let currentBase :=
      match currentPolicy with
      | some p => p.base_fee_msat.getD 1000
      | none => 1000
    let currentRate :=
      match currentPolicy with
      | some p => p.fee_per_mil.getD 100
      | none => 100
    ⟨ChanPolicyScope.chanPoint fundingTxid outputIndex, currentBase, currentRate, 40,
      minHtlcMsat, true⟩
  else
    ⟨ChanPolicyScope.global, 1000, 100, 40, minHtlcMsat, true⟩

/-- C9: with a non-empty channel point the updateMinHtlc request preserves
the channel's current base fee and fee rate as read from the fee report
(defaulting to 1000 msat / 100 ppm when no matching policy exists), and sets
only the min-HTLC field to the new value; with an empty channel point the
global request instead resets base fee to 1000 msat and fee rate to 100 ppm
for all channels regardless of their current values. -/
theorem C9_update_min_htlc_frame (cp : String) (minHtlcMsat : Nat)
    (policies : List FeePolicy) :
    (∀ pol, cp ≠ "" → jsTrim cp ≠ "" →
      policies.find? (fun p => p.channel_point = cp) = some pol →
      (updateMinHtlcBody cp minHtlcMsat policies).base_fee_msat = pol.base_fee_msat.getD 1000
      ∧ (updateMinHtlcBody cp minHtlcMsat policies).fee_rate_ppm = pol.fee_per_mil.getD 100
      ∧ (updateMinHtlcBody cp minHtlcMsat policies).min_htlc_msat = minHtlcMsat
      ∧ (updateMinHtlcBody cp minHtlcMsat policies).min_htlc_msat_specified = true
      ∧ (updateMinHtlcBody cp minHtlcMsat policies).scope
          = ChanPolicyScope.chanPoint ((cp.splitOn ":").headD "")
              ((((cp.splitOn ":").getD 1 "").toNat?).getD 0))
    ∧ (cp ≠ "" → jsTrim cp ≠ "" →
      policies.find? (fun p => p.channel_point = cp) = none →
      (updateMinHtlcBody cp minHtlcMsat policies).base_fee_msat = 1000
      ∧ (updateMinHtlcBody cp minHtlcMsat policies).fee_rate_ppm = 100
      ∧ (updateMinHtlcBody cp minHtlcMsat policies).min_htlc_msat = minHtlcMsat)
    ∧ (cp = "" →
      updateMinHtlcBody cp minHtlcMsat policies
        = ⟨ChanPolicyScope.global, 1000, 100, 40, minHtlcMsat, true⟩) := by
  refine ⟨?_, ?_, ?_⟩
  · intro pol h1 h2 hfind
    unfold updateMinHtlcBody
    rw [if_pos ⟨h1, h2⟩]
    simp [hfind]
  · intro h1 h2 hfind
    unfold updateMinHtlcBody
    rw [if_pos ⟨h1, h2⟩]
    simp [hfind]
  · intro h1
    unfold updateMinHtlcBody
    rw [if_neg (by simp [h1])]

/-- A fee report with one matching policy, for the C9 witness. -/
def witnessPolicy : FeePolicy := ⟨"ff:1", some 2500, some 350⟩

/-- C9 witness: the frame theorem applied to channel point "ff:1", min HTLC
5000 msat and a one-entry fee report. -/
theorem C9_update_min_htlc_frame_witness :
    (updateMinHtlcBody "ff:1" 5000 [witnessPolicy]).base_fee_msat
        = witnessPolicy.base_fee_msat.getD 1000
    ∧ (updateMinHtlcBody "ff:1" 5000 [witnessPolicy]).fee_rate_ppm
        = witnessPolicy.fee_per_mil.getD 100
    ∧ (updateMinHtlcBody "ff:1" 5000 [witnessPolicy]).min_htlc_msat = 5000
    ∧ (updateMinHtlcBody "ff:1" 5000 [witnessPolicy]).min_htlc_msat_specified = true
    ∧ (updateMinHtlcBody "ff:1" 5000 [witnessPolicy]).scope
        = ChanPolicyScope.chanPoint (("ff:1".splitOn ":").headD "")
            (((("ff:1".splitOn ":").getD 1 "").toNat?).getD 0) :=
  (C9_update_min_htlc_frame "ff:1" 5000 [witnessPolicy]).1 witnessPolicy
    (by decide) (by decide) (by rfl)

/-- The base64 alphabet used by `Buffer.prototype.toString('base64')`. -/
def base64Chars : List Char :=
  "ABCDEFGHIJKLMNOPQRSTUVWXYZabcdefghijklmnopqrstuvwxyz0123456789+/".data

def base64Char (n : Nat) : Char := base64Chars.getD n 'A'

/-- RFC 4648 base64 of a byte list with `=` padding, the encoding
`Buffer.toString('base64')` performs. -/
def base64Encode : List Nat → List Char
  | [] => []
  | [b1] => [base64Char (b1 / 4), base64Char (b1 % 4 * 16), '=', '=']
  | [b1, b2] =>
    [base64Char (b1 / 4), base64Char (b1 % 4 * 16 + b2 / 16), base64Char (b2 % 16 * 4), '=']
  | b1 :: b2 :: b3 :: rest =>
    base64Char (b1 / 4) :: base64Char (b1 % 4 * 16 + b2 / 16)
      :: base64Char (b2 % 16 * 4 + b3 / 64) :: base64Char (b3 % 64) :: base64Encode rest

/-- `Buffer.from(s, 'utf-8').toString('base64')` for the ASCII strings the
source encodes (one byte per character). -/
def base64Of (s : String) : String :=
  String.mk (base64Encode (s.data.map Char.toNat))

/-- `Buffer.from('n8n-dust-protect').toString('base64')`, the lease id the
detectDustUtxos auto-freeze uses. -/
def dustProtectLeaseId : String := base64Of "n8n-dust-protect"

/-- `Buffer.from('n8n-freeze').toString('base64')`, the lease id leaseOutput
and releaseOutput use. -/
def freezeLeaseId : String := base64Of "n8n-freeze"

/-- Body of a `/v2/wallet/utxos/lease` POST (the hex-to-base64 transcoding of
the txid is kept abstract in `txid`; the claims concern only `id`). -/
structure LeaseRequest where
  id : String
  txid : String
  output_index : Nat
  expiration_seconds : Nat
deriving DecidableEq, Repr

/-- Body of a `/v2/wallet/utxos/release` POST. -/
structure ReleaseRequest where
  id : String
  txid : String
  output_index : Nat
deriving DecidableEq, Repr

/-- The lease request the detectDustUtxos auto-freeze loop sends for one dust
UTXO. -/
def detectDustFreezeRequest (txid : String) (outIdx : Nat) (freezeDuration : Nat) :
    LeaseRequest :=
  ⟨dustProtectLeaseId, txid, outIdx, freezeDuration⟩

/-- The lease request the leaseOutput operation sends for an
`outpoint = txid:index` parameter. -/
def leaseOutputRequest (outpoint : String) (duration : Nat) : LeaseRequest :=
  ⟨freezeLeaseId, (outpoint.splitOn ":").headD "",
    ((((outpoint.splitOn ":").getD 1 "").toNat?).getD 0), duration⟩

/-- The release request the releaseOutput operation sends. -/
def releaseOutputRequest (outpoint : String) : ReleaseRequest :=
  ⟨freezeLeaseId, (outpoint.splitOn ":").headD "",
    ((((outpoint.splitOn ":").getD 1 "").toNat?).getD 0)⟩

/-- C10: the auto-freeze of detectDustUtxos leases under
base64("n8n-dust-protect") while leaseOutput and releaseOutput both use
base64("n8n-freeze"); the two ids differ, so for every outpoint the release
request carries a lease id different from the one under which the auto-freeze
froze that outpoint. -/
theorem C10_release_lease_id_mismatch (outpoint txid : String)
    (outIdx freezeDuration leaseDuration : Nat) :
    (detectDustFreezeRequest txid outIdx freezeDuration).id = dustProtectLeaseId
    ∧ (leaseOutputRequest outpoint leaseDuration).id = freezeLeaseId
    ∧ (releaseOutputRequest outpoint).id = freezeLeaseId
    ∧ dustProtectLeaseId = "bjhuLWR1c3QtcHJvdGVjdA=="
    ∧ freezeLeaseId = "bjhuLWZyZWV6ZQ=="
    ∧ (releaseOutputRequest outpoint).id ≠ (detectDustFreezeRequest txid outIdx freezeDuration).id := by
  refine ⟨rfl, rfl, rfl, by decide, by decide, ?_⟩
  show freezeLeaseId ≠ dustProtectLeaseId
  decide
